import Mathlib

/-!
Verification of `post_ood_logs_to_access_mms.py` (a single-file Python script).

The script's core is:
  * `__run_pipeline` (source lines 18-75): spawn a chain of subprocesses,
    each process's stdout piped to the next process's stdin, every process's
    stderr sent to `/dev/null`; the last process's captured streams and exit
    code are returned in a dict.
  * `__find_conf_value` (source lines 77-130): three-tier value resolution
    (live pipeline, cached `ConfigParser` value, caller default), recording
    the result back into the `main` section of the parser.
  * module-level driver code (source lines 132-219): read `conf.ini`,
    check the `logs` and `runs` sections, resolve three keys, rewrite the
    file with a fixed comment header.

The embedding below models the operating system as a deterministic function
from a command's argument list and its (fully buffered) standard input to the
bytes it writes on stdout and stderr and its exit code.  Byte streams are
modelled as `String` (the script decodes them as UTF-8; decoding is modelled
as the identity on already-textual streams).  Python exceptions are modelled
by `Except PyErr`.  The module-level constant `DEBUG` is `True` in the
source, so the `DEBUG` branches (whose `print` calls can raise `TypeError`
when concatenating a `str` with `bytes` or `None`) are modelled as taken.
-/

/-- The Python exceptions the script can raise. -/
inductive PyErr where
  | fileNotFoundError
  | keyError
  | typeError
  | attributeError
  | noSectionError
  | noOptionError
  deriving DecidableEq, Repr

instance {ε α : Type} [DecidableEq ε] [DecidableEq α] : DecidableEq (Except ε α) := fun a b =>
  match a, b with
  | Except.error e1, Except.error e2 =>
    match decEq e1 e2 with
    | isTrue h => isTrue (by rw [h])
    | isFalse h => isFalse (fun hh => h (Except.error.inj hh))
  | Except.error _, Except.ok _ => isFalse (fun hh => Except.noConfusion hh)
  | Except.ok _, Except.error _ => isFalse (fun hh => Except.noConfusion hh)
  | Except.ok a1, Except.ok a2 =>
    match decEq a1 a2 with
    | isTrue h => isTrue (by rw [h])
    | isFalse h => isFalse (fun hh => h (Except.ok.inj hh))

/-- A Python value as it appears in the `results` dict of `__run_pipeline`
and in the `value` variable of `__find_conf_value`: `None`, a `bytes`
object (its UTF-8 decoding is stored), or a `str`. -/
inductive PyVal where
  | pyNone
  | pyBytes (b : String)
  | pyStr (s : String)
  deriving DecidableEq, Repr

/-- What one external command does: given its argument list and the text on
its standard input (`none` = no input attached), it produces stdout text,
stderr text and an exit code. -/
structure OSResult where
  out : String
  err : String
  code : Int
  deriving DecidableEq, Repr

/-- A deterministic model of the operating system: running a command is a
pure function of its argument list and its standard input. -/
def OS : Type := List String → Option String → OSResult

/-- `str.rstrip()` test used by Python: ASCII whitespace characters
(space, tab, newline, carriage return, vertical tab, form feed). -/
def pySpace (c : Char) : Bool :=
  c = ' ' || c = '\t' || c = '\n' || c = '\r' ||
    c = Char.ofNat 11 || c = Char.ofNat 12

/-- Python's `str.rstrip()` with no argument: drop all trailing whitespace.
Source line 71 applies it to the decoded stream. -/
def pyRstrip (s : String) : String :=
  String.mk ((s.data.reverse.dropWhile pySpace).reverse)

/-- The Popen loop of `__run_pipeline` (source lines 49-60), followed by
`old_process.communicate()`: each command's stdin is the previous command's
stdout (the first command gets `stdin=None`), and only the last command's
`OSResult` is inspected.  Returns `none` when the command list is empty
(`old_process` stays `None`). -/
def runLast (os : OS) : List (List String) → Option String → Option OSResult
  | [], _ => none
  | [c], stdin => some (os c stdin)
  | c :: c2 :: rest, stdin => runLast os (c2 :: rest) (some (os c stdin).out)

/-- The `results` dict built by `__run_pipeline` (source lines 62-75). -/
structure PipeRes where
  stdout : PyVal
  stderr : PyVal
  code : Int
  deriving DecidableEq, Repr

/-- Post-processing of the last command's raw result (source lines 62-75):
`communicate()` yields the stdout bytes and `None` for stderr (stderr was
redirected to `DEVNULL` for every process, the last one included, source
line 57); a non-empty stream is decoded and `rstrip`-ped, an empty `bytes`
stream and the `None` stderr are left untouched by the `if results[stream]`
guard. -/
def mkPipeRes (o : OSResult) : PipeRes :=
  { stdout := if o.out = "" then PyVal.pyBytes "" else PyVal.pyStr (pyRstrip o.out)
    stderr := PyVal.pyNone
    code := o.code }

/-- `__run_pipeline` generalized over the stdin handed to the first command
(the script always passes no input; the generalization expresses the pipe
chaining).  An empty command tuple makes `old_process.communicate()` raise
`AttributeError` on `None`. -/
def runPipelineFrom (os : OS) (cmds : List (List String)) (stdin : Option String) :
    Except PyErr PipeRes :=
  match runLast os cmds stdin with
  | none => Except.error PyErr.attributeError
  | some o => Except.ok (mkPipeRes o)

/-- `__run_pipeline` (source lines 18-75): the first command receives no
standard input. -/
def runPipeline (os : OS) (cmds : List (List String)) : Except PyErr PipeRes :=
  runPipelineFrom os cmds none

/-- One section of the `ConfigParser` state: an ordered association list of
option name to value; with `allow_no_value=True` a valueless entry maps to
`none` (Python `None`). -/
abbrev ConfSection : Type := List (String × Option String)

/-- The in-memory `ConfigParser` state: ordered association list of section
name to section. -/
abbrev Conf : Type := List (String × ConfSection)

/-- Lookup of an option inside a section. -/
def secFind : ConfSection → String → Option (Option String)
  | [], _ => none
  | (k2, v) :: rest, k => if k2 = k then some v else secFind rest k

/-- `dict`-style update of a section: overwrite the first entry with the
key in place, append when absent. -/
def setInSection : ConfSection → String → Option String → ConfSection
  | [], k, v => [(k, v)]
  | (k2, v2) :: rest, k, v =>
    if k2 = k then (k, v) :: rest else (k2, v2) :: setInSection rest k v

/-- Section lookup in the parser state. -/
def confLookup : Conf → String → Option ConfSection
  | [], _ => none
  | (s2, m) :: rest, s => if s2 = s then some m else confLookup rest s

/-- `ConfigParser.get(section, option)` with no fallback argument (source
line 115): raises `NoSectionError` when the section is missing and
`NoOptionError` when the option is missing; interpolation and the DEFAULT
section play no role for the values in question and are not modelled. -/
def confGet (conf : Conf) (s k : String) : Except PyErr (Option String) :=
  match confLookup conf s with
  | none => Except.error PyErr.noSectionError
  | some m =>
    match secFind m k with
    | none => Except.error PyErr.noOptionError
    | some v => Except.ok v

/-- `ConfigParser.set(section, option, value)` (source line 128): raises
`NoSectionError` when the section is missing, otherwise stores the value. -/
def confSet : Conf → String → String → Option String → Except PyErr Conf
  | [], _, _, _ => Except.error PyErr.noSectionError
  | (s2, m) :: rest, s, k, v =>
    if s2 = s then Except.ok ((s2, setInSection m k v) :: rest)
    else
      match confSet rest s k v with
      | Except.error e => Except.error e
      | Except.ok rest2 => Except.ok ((s2, m) :: rest2)

/-- The tier selection of `__find_conf_value` (source lines 106-126), after
the pipeline has produced `results`.  With exit code 0 the value is
`results['stdout']`; since `DEBUG` is `True`, line 110 concatenates that
value with a `str`, which raises `TypeError` unless it is itself a `str`
(it is `b''` when the pipeline's output was empty).  With a non-zero exit
code, line 115 reads the cached value (`NoSectionError`/`NoOptionError`
propagate); an empty-string or `None` cached value is falsy, so the `else`
of line 116 replaces it with the caller's default. -/
def resolveTier (conf : Conf) (key : String) (results : PipeRes) (dfl : String) :
    Except PyErr String :=
  if results.code = 0 then
    match results.stdout with
    | PyVal.pyStr s => Except.ok s
    | _ => Except.error PyErr.typeError
  else
    match confGet conf "main" key with
    | Except.error e => Except.error e
    | Except.ok (some s) => if s = "" then Except.ok dfl else Except.ok s
    | Except.ok none => Except.ok dfl

/-- `__find_conf_value(conf, key, pipeline_args, default)` (source lines
77-130): run the pipeline, pick the value by tier, record it with
`conf.set('main', key, value)` (source line 128) and return it together
with the updated parser state. -/
def findConfValue (conf : Conf) (key : String) (pipelineArgs : List (List String))
    (dfl : String) (os : OS) : Except PyErr (String × Conf) :=
  match runPipeline os pipelineArgs with
  | Except.error e => Except.error e
  | Except.ok results =>
    match resolveTier conf key results dfl with
    | Except.error e => Except.error e
    | Except.ok value =>
      match confSet conf "main" key (some value) with
      | Except.error e => Except.error e
      | Except.ok conf2 => Except.ok (value, conf2)

/-- The pipeline of the `apache_conf_path` resolution (source lines
152-156). -/
def apachePipeline : List (List String) :=
  [["httpd", "-t", "-D", "DUMP_INCLUDES"],
   ["grep", "^\\s*(\\*)"],
   ["awk", "\x7bprint $2\x7d"]]

/-- The pipeline of the `ood_portal_conf_path` resolution (source lines
166-170). -/
def oodPortalPipeline : List (List String) :=
  [["httpd", "-t", "-D", "DUMP_INCLUDES"],
   ["grep", "ood-portal.conf"],
   ["awk", "\x7bprint $2\x7d"]]

/-- The pipeline of the `access_log_filename` resolution (source lines
180-185); it mentions the portal path resolved in the previous step. -/
def accessLogPipeline (oodPortalConfPath : String) : List (List String) :=
  [["grep", "^\\s*[^#]\\s*\\<CustomLog\\>", oodPortalConfPath],
   ["grep", "_access_"],
   ["awk", "\x7bprint $2\x7d"],
   ["cut", "-d", "\"", "-f", "2"]]

/-- The parameter names of `__find_conf_value` that can be bound by keyword
(source line 77; `conf` is passed positionally by the driver). -/
def findConfValueKwParams : List String := ["key", "pipeline_args", "default"]

/-- The keyword names the driver actually uses at each of the three call
sites (source lines 151-157, 165-171, 179-186). -/
def driverCallKeywords : List String := ["key", "command_args", "default"]

/-- Python binds a call's keywords to the function's parameters and raises
`TypeError` when a keyword names no parameter (here `command_args` does
not, and the required `pipeline_args` is left unbound). -/
def driverCallBindsOk : Bool :=
  driverCallKeywords.all (fun k => findConfValueKwParams.contains k) &&
    findConfValueKwParams.all (fun p => driverCallKeywords.contains p)

/-- Observable outcome of one run of the module-level driver code:
the exception it raised (if any), how many `__find_conf_value` calls got as
far as running their pipeline, and whether `conf.ini` was rewritten
(source lines 216-219). -/
structure DriverResult where
  outcome : Except PyErr Unit
  pipelinesRun : Nat
  fileWritten : Bool
  deriving DecidableEq, Repr

/-- The three resolutions and the final rewrite, as they would execute if
the keyword binding at the call sites succeeded (it does not; this branch
is unreachable and is kept to state what the driver was written to do). -/
def driverResolved (conf : Conf) (os : OS) : DriverResult :=
  match findConfValue conf "apache_conf_path" apachePipeline
      "/etc/httpd/conf/httpd.conf" os with
  | Except.error e => ⟨Except.error e, 1, false⟩
  | Except.ok (_, conf1) =>
    match findConfValue conf1 "ood_portal_conf_path" oodPortalPipeline
        "/etc/httpd/conf.d/ood-portal.conf" os with
    | Except.error e => ⟨Except.error e, 2, false⟩
    | Except.ok (oodPath, conf2) =>
      match findConfValue conf2 "access_log_filename" (accessLogPipeline oodPath)
          "/etc/httpd/conf.d/ood-portal.conf" os with
      | Except.error e => ⟨Except.error e, 3, false⟩
      | Except.ok (_, _) => ⟨Except.ok (), 3, true⟩

/-- The module-level driver (source lines 132-219).  `readResult` models
`conf.read(CONF_FILENAME)`: `none` when the file could not be read (the
script then raises `FileNotFoundError`, line 137).  Lines 139-144 raise
`KeyError` when the `logs` or `runs` section is missing.  The first
`__find_conf_value` call (line 149) then raises `TypeError`, because it
passes the keyword `command_args` while the function's parameter is named
`pipeline_args`. -/
def driver (readResult : Option Conf) (os : OS) : DriverResult :=
  match readResult with
  | none => ⟨Except.error PyErr.fileNotFoundError, 0, false⟩
  | some conf =>
    if (confLookup conf "logs").isNone || (confLookup conf "runs").isNone then
      ⟨Except.error PyErr.keyError, 0, false⟩
    else if driverCallBindsOk then
      driverResolved conf os
    else
      ⟨Except.error PyErr.typeError, 0, false⟩

/-- Spec-side transformation of a final stream, following the spec's words
for the Pipeline Runner result: "decoded as text, trailing newline
stripped; set to an explicit empty marker (None) if the output was empty".
Used only to compare the spec's description with `mkPipeRes`. -/
def specStripNewline (raw : String) : PyVal :=
  if raw = "" then PyVal.pyNone
  else PyVal.pyStr
    (match raw.data.getLast? with
     | some c => if c = '\n' then String.mk raw.data.dropLast else raw
     | none => raw)

/-- An operating system in which every command fails with exit code 1 and
produces no output. -/
def osAllFail : OS := fun _ _ => ⟨"", "", 1⟩

/-- An operating system in which every command succeeds and prints an
Apache configuration path followed by a newline. -/
def osApacheOk : OS := fun _ _ => ⟨"/etc/httpd/conf/httpd.conf\n", "", 0⟩

/-- An operating system in which every command succeeds, printing `ok` on
stdout and `oops` on stderr. -/
def osLoudErr : OS := fun _ _ => ⟨"ok\n", "oops\n", 0⟩

/-- An operating system in which every command succeeds and emits stdout
with a trailing space before the trailing newline. -/
def osTrailSpace : OS := fun _ _ => ⟨"a \n", "", 0⟩

example : runPipeline osApacheOk [["httpd"]] =
    Except.ok ⟨PyVal.pyStr "/etc/httpd/conf/httpd.conf", PyVal.pyNone, 0⟩ := by
  decide

example : runPipeline osAllFail [] = Except.error PyErr.attributeError := rfl

example : findConfValue [("main", [])] "k" [["false"]] "/d" osAllFail =
    Except.error PyErr.noOptionError := by decide

example : driver (some [("main", []), ("logs", []), ("runs", [])]) osAllFail =
    ⟨Except.error PyErr.typeError, 0, false⟩ := by decide

/-- Updating a section stores the value under the key. -/
theorem secFind_setInSection (m : ConfSection) (k : String) (v : Option String) :
    secFind (setInSection m k v) k = some v := by
  induction m with
  | nil => simp [setInSection, secFind]
  | cons head tail ih =>
    obtain ⟨k2, v2⟩ := head
    by_cases hk : k2 = k
    · simp [setInSection, hk, secFind]
    · simp [setInSection, hk, secFind, ih]

/-- A successful `ConfigParser.set` makes the subsequent `get` of the same
section and option return the stored value. -/
theorem confGet_confSet (conf : Conf) (s k : String) (v : Option String)
    (conf2 : Conf) (h : confSet conf s k v = Except.ok conf2) :
    confGet conf2 s k = Except.ok v := by
  induction conf generalizing conf2 with
  | nil => simp [confSet] at h
  | cons head tail ih =>
    obtain ⟨s2, m⟩ := head
    by_cases hs : s2 = s
    · rw [confSet, if_pos hs] at h
      cases h
      simp [confGet, confLookup, hs, secFind_setInSection]
    · rw [confSet, if_neg hs] at h
      cases htail : confSet tail s k v with
      | error e => rw [htail] at h; cases h
      | ok rest2 =>
        rw [htail] at h
        cases h
        have := ih rest2 htail
        simpa [confGet, confLookup, hs] using this

/-- A successful `ConfigParser.get` implies the section exists. -/
theorem confLookup_of_confGet (conf : Conf) (s k : String) (v : Option String)
    (h : confGet conf s k = Except.ok v) :
    ∃ m, confLookup conf s = some m := by
  unfold confGet at h
  cases hl : confLookup conf s with
  | none => rw [hl] at h; cases h
  | some m => exact ⟨m, rfl⟩

/-- When the section exists, `ConfigParser.set` succeeds. -/
theorem confSet_of_confLookup (conf : Conf) (s k : String) (v : Option String)
    (m : ConfSection) (h : confLookup conf s = some m) :
    ∃ conf2, confSet conf s k v = Except.ok conf2 := by
  induction conf with
  | nil => simp [confLookup] at h
  | cons head tail ih =>
    obtain ⟨s2, msec⟩ := head
    by_cases hs : s2 = s
    · exact ⟨(s2, setInSection msec k v) :: tail, by rw [confSet, if_pos hs]⟩
    · rw [confLookup, if_neg hs] at h
      obtain ⟨rest2, hrest⟩ := ih h
      exact ⟨(s2, msec) :: rest2, by rw [confSet, if_neg hs, hrest]⟩

/-- A non-empty command list always yields a last process result. -/
theorem runLast_cons (os : OS) (c : List String) (rest : List (List String))
    (stdin : Option String) : ∃ o, runLast os (c :: rest) stdin = some o := by
  induction rest generalizing c stdin with
  | nil => exact ⟨os c stdin, rfl⟩
  | cons c2 rest2 ih => exact ih c2 (some (os c stdin).out)

/-- Claim C3: the claim says the last command's standard error is captured
and returned, and that a length-1 pipeline equals running the command
directly with its own stdout/stderr/exit code.  The code instead passes
`stderr=subprocess.DEVNULL` for every process, the last one included
(source line 57), so `communicate()` reports `None` for stderr: here the
single command writes `oops` on stderr yet the returned record carries the
`None` marker, not that text. -/
theorem c3_last_command_stderr_not_captured :
    runPipeline osLoudErr [["cmd"]] =
      Except.ok ⟨PyVal.pyStr "ok", PyVal.pyNone, 0⟩ ∧
    (osLoudErr ["cmd"] none).err = "oops\n" ∧
    PyVal.pyNone ≠ PyVal.pyStr (pyRstrip "oops\n") := by
  exact ⟨by decide, rfl, by decide⟩

/-- Claim C4 counterexample: the claim says the returned stdout is the raw
stream with exactly the trailing newline stripped.  On the raw stream
`"a \n"` that reading (modelled by `specStripNewline`) yields `"a "`,
but the code's `rstrip()` also removes the trailing space and yields
`"a"`. -/
theorem c4_counterexample :
    runPipeline osTrailSpace [["cmd"]] =
      Except.ok ⟨PyVal.pyStr "a", PyVal.pyNone, 0⟩ ∧
    specStripNewline ((osTrailSpace ["cmd"] none).out) = PyVal.pyStr "a " ∧
    PyVal.pyStr "a" ≠ PyVal.pyStr "a " := by
  exact ⟨by decide, by decide, by decide⟩

/-- Claim C4 (amended): for every run of the Pipeline Runner, the returned
stdout of the final command is the raw stream decoded as text with all
trailing whitespace stripped (`str.rstrip()`), and is left as the empty
byte string (not `None`) when the stream was empty; the returned stderr is
always the `None` marker, whatever the final command wrote, because every
command's stderr goes to `/dev/null`. -/
theorem c4_amended_stream_transform (os : OS) (cmds : List (List String))
    (o : OSResult) (h : runLast os cmds none = some o) :
    runPipeline os cmds =
      Except.ok ⟨if o.out = "" then PyVal.pyBytes "" else PyVal.pyStr (pyRstrip o.out),
        PyVal.pyNone, o.code⟩ := by
  unfold runPipeline runPipelineFrom
  rw [h]
  rfl

/-- Concrete instantiation of the amended transformation on the stream
`"a \n"`. -/
theorem c4_amended_witness :
    runPipeline osTrailSpace [["cmd"]] =
      Except.ok ⟨PyVal.pyStr "a", PyVal.pyNone, 0⟩ :=
  c4_amended_stream_transform osTrailSpace [["cmd"]] ⟨"a \n", "", 0⟩ rfl

/-- Claim C7: the standard output of command `i` is the standard input of
command `i+1`, the first command receives no input, and a singleton
pipeline's surfaced result is exactly the post-processing of that single
command's own run: the first conjunct states the whole run with no initial
input, the second the chaining step from an arbitrary initial input, the
third the base case in which the last command's result is the one
surfaced. -/
theorem c7_pipe_chaining (os : OS) (c c2 : List String)
    (rest : List (List String)) (stdin : Option String) :
    runPipeline os (c :: c2 :: rest) =
      runPipelineFrom os (c2 :: rest) (some (os c none).out) ∧
    runPipelineFrom os (c :: c2 :: rest) stdin =
      runPipelineFrom os (c2 :: rest) (some (os c stdin).out) ∧
    runPipelineFrom os [c] stdin = Except.ok (mkPipeRes (os c stdin)) := by
  exact ⟨rfl, rfl, rfl⟩

/-- Claim C10: a pipeline with at least one command returns a result
record, while the empty pipeline leaves `old_process` as `None` and the
call `old_process.communicate()` raises `AttributeError`. -/
theorem c10_record_or_attribute_error :
    (∀ os : OS, runPipeline os [] = Except.error PyErr.attributeError) ∧
    (∀ (os : OS) (c : List String) (rest : List (List String)),
      ∃ r : PipeRes, runPipeline os (c :: rest) = Except.ok r) := by
  constructor
  · intro os; rfl
  · intro os c rest
    obtain ⟨o, ho⟩ := runLast_cons os c rest none
    refine ⟨mkPipeRes o, ?_⟩
    unfold runPipeline runPipelineFrom
    rw [ho]

/-- Claim C2: the claim says that with a failing pipeline and no
`main.<key>` entry the resolver returns the caller default without raising.
The code's `conf.get('main', key)` (source line 115) passes no fallback, so
a missing option raises `configparser.NoOptionError` instead: evaluated
here with an empty `main` section and a pipeline exiting 1. -/
theorem c2_missing_key_raises :
    findConfValue [("main", []), ("logs", []), ("runs", [])] "apache_conf_path"
        [["false"]] "/default/path" osAllFail =
      Except.error PyErr.noOptionError := by
  decide

/-- Claim C5: whenever `__find_conf_value` returns (rather than raising),
the returned value has been stored under the given key in the `main`
section of the updated parser state, whatever tier supplied it and
whatever was cached there before. -/
theorem c5_resolved_value_persisted (conf : Conf) (key : String)
    (args : List (List String)) (dfl : String) (os : OS)
    (v : String) (conf2 : Conf)
    (h : findConfValue conf key args dfl os = Except.ok (v, conf2)) :
    confGet conf2 "main" key = Except.ok (some v) := by
  unfold findConfValue at h
  split at h
  · exact Except.noConfusion h
  · split at h
    · exact Except.noConfusion h
    · split at h
      · exact Except.noConfusion h
      · rename_i value hset c2 hs
        have hpair := Except.ok.inj h
        rw [Prod.mk.injEq] at hpair
        obtain ⟨hv, hc2⟩ := hpair
        subst hv
        subst hc2
        exact confGet_confSet _ _ _ _ _ hs

/-- Concrete instantiation of the persistence property: a tier-1 (live
pipeline) resolution stores the queried path under `main.apache_conf_path`. -/
theorem c5_witness :
    confGet [("main", [("apache_conf_path", some "/etc/httpd/conf/httpd.conf")])]
        "main" "apache_conf_path" =
      Except.ok (some "/etc/httpd/conf/httpd.conf") :=
  c5_resolved_value_persisted [("main", [])] "apache_conf_path" [["httpd"]]
    "/d" osApacheOk "/etc/httpd/conf/httpd.conf"
    [("main", [("apache_conf_path", some "/etc/httpd/conf/httpd.conf")])]
    (by decide)

/-- Claim C9: a cached entry whose value is the empty string, or a
valueless entry (`None` under `allow_no_value=True`), is falsy in the
`if value and DEBUG` test (source line 116), so a failing pipeline makes
the resolver return the caller default and store it under the key. -/
theorem c9_blank_cached_value_uses_default (conf : Conf) (key : String)
    (args : List (List String)) (dfl : String) (os : OS) (r : PipeRes)
    (cv : Option String) (conf2 : Conf)
    (hp : runPipeline os args = Except.ok r)
    (hc : ¬ r.code = 0)
    (hg : confGet conf "main" key = Except.ok cv)
    (hblank : cv = none ∨ cv = some "")
    (hs : confSet conf "main" key (some dfl) = Except.ok conf2) :
    findConfValue conf key args dfl os = Except.ok (dfl, conf2) ∧
    confGet conf2 "main" key = Except.ok (some dfl) := by
  have ht : resolveTier conf key r dfl = Except.ok dfl := by
    unfold resolveTier
    rw [if_neg hc, hg]
    rcases hblank with rfl | rfl
    · rfl
    · rfl
  refine ⟨?_, confGet_confSet conf "main" key (some dfl) conf2 hs⟩
  unfold findConfValue
  rw [hp]
  dsimp only
  rw [ht]
  dsimp only
  rw [hs]

/-- Concrete instantiation: `main.access_log_filename` is cached as the
empty string, every command exits 1, and the default is returned and
stored. -/
theorem c9_witness :
    findConfValue [("main", [("access_log_filename", some "")]), ("logs", []),
        ("runs", [])] "access_log_filename" [["grep", "x"]] "/d" osAllFail =
      Except.ok ("/d", [("main", [("access_log_filename", some "/d")]),
        ("logs", []), ("runs", [])]) ∧
    confGet [("main", [("access_log_filename", some "/d")]), ("logs", []),
        ("runs", [])] "main" "access_log_filename" = Except.ok (some "/d") :=
  c9_blank_cached_value_uses_default
    [("main", [("access_log_filename", some "")]), ("logs", []), ("runs", [])]
    "access_log_filename" [["grep", "x"]] "/d" osAllFail
    ⟨PyVal.pyBytes "", PyVal.pyNone, 1⟩ (some "")
    [("main", [("access_log_filename", some "/d")]), ("logs", []), ("runs", [])]
    (by decide) (by decide) (by decide) (Or.inr rfl) (by decide)

/-- Claim C1: the claim says that with a readable configuration file
holding the required sections the driver resolves the three keys and
terminates with status 0.  The code instead raises `TypeError` at the
first resolution (source line 149): the call binds the keyword
`command_args`, but `__find_conf_value`'s parameter is named
`pipeline_args` (source line 77), so no key is resolved and nothing is
rewritten.  Evaluated on a configuration with `main`, `logs` and `runs`
sections. -/
theorem c1_driver_raises_type_error :
    driver (some [("main", []), ("logs", []), ("runs", [])]) osAllFail =
      ⟨Except.error PyErr.typeError, 0, false⟩ ∧
    driverCallBindsOk = false := by
  exact ⟨by decide, by decide⟩

/-- Claim C6: a missing configuration file raises `FileNotFoundError`, and
a configuration lacking the `logs` or `runs` section raises `KeyError`; in
both cases no pipeline has run and the file has not been rewritten. -/
theorem c6_early_abort (os : OS) (conf : Conf) :
    driver none os = ⟨Except.error PyErr.fileNotFoundError, 0, false⟩ ∧
    ((confLookup conf "logs" = none ∨ confLookup conf "runs" = none) →
      driver (some conf) os = ⟨Except.error PyErr.keyError, 0, false⟩) := by
  constructor
  · rfl
  · intro h
    have hb : ((confLookup conf "logs").isNone || (confLookup conf "runs").isNone) = true := by
      rcases h with h | h <;> simp [h]
    unfold driver
    simp only [hb, if_true]

/-- Concrete instantiation: an unreadable file, and a file containing only
a `main` section. -/
theorem c6_witness :
    driver none osAllFail = ⟨Except.error PyErr.fileNotFoundError, 0, false⟩ ∧
    driver (some [("main", [])]) osAllFail =
      ⟨Except.error PyErr.keyError, 0, false⟩ :=
  ⟨(c6_early_abort osAllFail [("main", [])]).1,
   (c6_early_abort osAllFail [("main", [])]).2 (Or.inl rfl)⟩

/-- Claim C8: the claim says that with all three keys cached in `main` and
all pipelines failing, the driver rewrites the file with the header
prepended to the same content.  Because of the `command_args` keyword
mismatch at the first call site, the driver instead raises `TypeError`
before any resolution and never rewrites the file (`fileWritten = false`),
evaluated here on exactly such a configuration and operating system. -/
theorem c8_driver_crashes_before_rewrite :
    driver (some [("main",
        [("apache_conf_path", some "/etc/httpd/conf/httpd.conf"),
         ("ood_portal_conf_path", some "/etc/httpd/conf.d/ood-portal.conf"),
         ("access_log_filename", some "/var/log/httpd/ood_access.log")]),
       ("logs", []), ("runs", [])]) osAllFail =
      ⟨Except.error PyErr.typeError, 0, false⟩ := by
  decide
